import Mathlib

/-!
Verification development for the browser-arena agent server.

Shallow embedding of the task-orchestration core: provider/model parsing
(src/agents/browser_use_agent/main.py), cost accounting and instruction
validation (src/agents/server.py, src/agents/instruction_validation.py),
the debug-info poller, selector filtering and JSON normalization
(src/agents/notte_agent/main.py, src/agents/server.py), and the two
background task paths (run_browser_use_task, run_notte_task in
src/agents/server.py) modelled as trace-producing functions over an
environment describing which fallible operations succeed.

Machine integers are modelled as Int/Nat, Python floats as rationals
(no float rounding is relevant to any claim proved here), Python dicts
as ordered association lists, and Python exceptions as Except / explicit
success flags.
-/

namespace TBA

/-! ## Provider/model parsing (src/agents/browser_use_agent/main.py, lines 16-23)

Python code:
  def parse_provider_model(provider_model: str):
      if provider_model.startswith("openrouter/"):
          return "openrouter", provider_model.split("/", 1)[1]
      if not provider_model:
          return "browser-use", "bu-1.0"
      provider, model = provider_model.split("/", 1)
      return provider, model

Python str.split("/", 1) yields [s] when s has no slash, and
[before, after] split at the first slash otherwise.  Unpacking a
one-element list into two variables raises ValueError. -/

/-- Split a character list at the first occurrence of the slash
character: returns none when no slash occurs. -/
def splitFirstAux : List Char → Option (List Char × List Char)
  | [] => none
  | c :: tl =>
    if c = '/' then some ([], tl)
    else
      match splitFirstAux tl with
      | some (a, b) => some (c :: a, b)
      | none => none

/-- Model of Python s.split("/", 1). -/
def pySplitSlash1 (s : String) : List String :=
  match splitFirstAux s.data with
  | none => [s]
  | some (a, b) => [String.mk a, String.mk b]

/-- Model of parse_provider_model.  A raised Python exception is
modelled as Except.error carrying the exception text. -/
def parse_provider_model (s : String) : Except String (String × String) :=
  if List.isPrefixOf ("openrouter/".data) s.data then
    match pySplitSlash1 s with
    | [_, rest] => Except.ok ("openrouter", rest)
    | _ => Except.error ("IndexError: list index out of range")
  else if s = "" then Except.ok ("browser-use", "bu-1.0")
  else
    match pySplitSlash1 s with
    | [p, m] => Except.ok (p, m)
    | _ => Except.error ("ValueError: not enough values to unpack")

/-! ## Cost accounting (src/agents/server.py, lines 360-416)

The pricing table maps exact provider/model strings to per-token
prices; the dict literal keys in / out / cached become the fields
inPrice / outPrice / cachedPrice.  Python floats such as 0.50 / 1_000_000
are modelled as rationals. -/

/-- One tier of the pricing table: the in / out / cached per-token
prices of the source dict. -/
structure PriceTier where
  inPrice : ℚ
  outPrice : ℚ
  cachedPrice : ℚ
deriving DecidableEq

/-- The module-level pricing dict of server.py (lines 360-396). -/
def pricing : List (String × PriceTier) :=
  [ ("browser-use/bu-1-0", ⟨0.50 / 1000000, 3.00 / 1000000, 0.10 / 1000000⟩),
    ("google/gemini-2.5-flash", ⟨0.3 / 1000000, 2.5 / 1000000, 0.03 / 1000000⟩),
    ("google/gemini-2.5-pro", ⟨1.25 / 1000000, 10.0 / 1000000, 0.3125 / 1000000⟩),
    ("google/gemini-3-pro-preview", ⟨2 / 1000000, 12.0 / 1000000, 0.2 / 1000000⟩),
    ("openai/gpt-4.1", ⟨2.0 / 1000000, 8.0 / 1000000, 0.5 / 1000000⟩),
    ("anthropic/claude-haiku-4.5", ⟨1.0 / 1000000, 5.0 / 1000000, 0.1 / 1000000⟩),
    ("openrouter/moonshotai/kimi-k2-thinking", ⟨0.6 / 1000000, 2.5 / 1000000, 0.06 / 1000000⟩) ]

/-- Model of compute_cost (server.py, lines 399-416).  The usage dict is
an association list; usage.get(key, 0) becomes a lookup with default 0;
pricing.get(model, default-tier) becomes a lookup with the inline
default tier of the source. -/
def compute_cost (model : String) (usage : List (String × ℚ)) : ℚ :=
  let total_cost := (List.lookup ("total_cost") usage).getD 0
  if total_cost = 0 then
    let price := (List.lookup model pricing).getD
      ⟨0.5 / 1000000, 3.00 / 1000000, 0.10 / 1000000⟩
    (List.lookup ("total_prompt_tokens") usage).getD 0 * price.inPrice
      + (List.lookup ("total_completion_tokens") usage).getD 0 * price.outPrice
      + (List.lookup ("total_prompt_cached_tokens") usage).getD 0 * price.cachedPrice
  else
    total_cost

/-! ## Instruction validation (src/agents/instruction_validation.py, lines 24-50,
and the AgentRequest pydantic model, src/agents/server.py, lines 215-245) -/

/-- The characters Python str.strip() removes: the full CPython
Py_UNICODE_ISSPACE set — ASCII 0x09-0x0D and space, the separator
controls 0x1C-0x1F, next line 0x85, no-break space 0xA0, ogham space
0x1680, the typographic spaces 0x2000-0x200A, line and paragraph
separators 0x2028/0x2029, narrow no-break space 0x202F, medium
mathematical space 0x205F, and ideographic space 0x3000. -/
def isPyWhitespace (c : Char) : Bool :=
  let n := c.toNat
  (9 ≤ n && n ≤ 13) || (28 ≤ n && n ≤ 31) || n = 32 || n = 0x85 || n = 0xA0
    || n = 0x1680 || (0x2000 ≤ n && n ≤ 0x200A) || n = 0x2028 || n = 0x2029
    || n = 0x202F || n = 0x205F || n = 0x3000

/-- Model of Python str.strip(): drop whitespace from both ends. -/
def pyStrip (s : String) : String :=
  String.mk (((s.data.dropWhile isPyWhitespace).reverse.dropWhile isPyWhitespace).reverse)

/-- MAX_INSTRUCTION_LENGTH with its default value 5000 (the env-var
override is modelled by the maxLen parameter of validate_instruction). -/
def MAX_INSTRUCTION_LENGTH : Nat := 5000

/-- Model of validate_instruction (instruction_validation.py, lines
24-50): returns (is_valid, error message).  The isinstance check is
always true in this typed embedding.  Python truthiness of a string is
emptiness. -/
def validate_instruction (maxLen : Nat) (instruction : String) : Bool × Option String :=
  if instruction = "" then
    (false, some ("Instruction is required and must be a string"))
  else if instruction.length > maxLen then
    (false, some ("Instruction is too long."))
  else if pyStrip instruction = "" then
    (false, some ("Instruction cannot be empty"))
  else
    (true, none)

/-- The pydantic admission gate of AgentRequest: the Field constraints
min_length=1, max_length=5000 (server.py lines 217-222) together with the
field validator calling validate_instruction with the default maximum. -/
def agentRequestAccepts (instruction : String) : Bool :=
  decide (1 ≤ instruction.length) && decide (instruction.length ≤ 5000)
    && (validate_instruction MAX_INSTRUCTION_LENGTH instruction).1

/-- Admission model: pydantic validation failure rejects the request
before the endpoint body runs, so the createAgentFromBackend mutation
(server.py line 1076) is never reached and no task record is created.
Returns some record-marker exactly when a record is created. -/
def submit (instruction : String) : Option Unit :=
  if agentRequestAccepts instruction then some () else none

/-! ## Debug-info poller (src/agents/notte_agent/main.py, lines 10-75)

The remote fetch session.debug_info() is modelled as a function from the
attempt number to Option of the fetched value (none meaning the call
raised).  The model returns the result, the number of fetch invocations
made, and the list of sleep durations performed. -/

/-- One pass of the for-loop of get_debug_info_with_polling, from a given
attempt index and current delay.  Mirrors: try fetch, return on success;
on exception sleep and grow the delay if attempts remain, else return
none. -/
def pollLoop {α : Type} (fetch : Nat → Option α) (maxRetries : Nat) (maxDelay : ℚ)
    (attempt : Nat) (delay : ℚ) : Option α × Nat × List ℚ :=
  if h : attempt < maxRetries then
    match fetch attempt with
    | some v => (some v, 1, [])
    | none =>
      if attempt < maxRetries - 1 then
        let r := pollLoop fetch maxRetries maxDelay (attempt + 1) (min (delay * 1.5) maxDelay)
        (r.1, r.2.1 + 1, delay :: r.2.2)
      else
        (none, 1, [])
  else
    (none, 0, [])
termination_by maxRetries - attempt
decreasing_by omega

/-- Model of get_debug_info_with_polling: runs the loop from attempt 0
with the initial delay.  Result: (value or none, fetch calls made,
sleeps performed).  The source defaults are max_retries=10,
initial_delay=1.0, max_delay=5.0. -/
def get_debug_info_with_polling {α : Type} (fetch : Nat → Option α)
    (maxRetries : Nat) (initialDelay maxDelay : ℚ) : Option α × Nat × List ℚ :=
  pollLoop fetch maxRetries maxDelay 0 initialDelay

/-! ## Background task paths (src/agents/server.py, run_browser_use_task
lines 533-846 and run_notte_task lines 849-981)

Each Convex mutation either succeeds (the store observes the write) or
raises (the store does not).  The environment records which fallible
operations succeed; the model yields the list of attempted writes
tagged with success, plus whether the agent-execution step was invoked.
updateAgentBrowserUrlFromBackend carries no status and no result and is
not part of the modelled write alphabet. -/

/-- The status/result writes a background task can issue.
statusRunning/statusCompleted/statusFailed are
updateAgentStatusFromBackend with the respective status;
resultCompleted is updateAgentResultFromBackend, which carries the
result payload together with status completed. -/
inductive ConvexWrite : Type where
  | statusRunning : ConvexWrite
  | statusCompleted : ConvexWrite
  | statusFailed : ConvexWrite
  | resultCompleted : ConvexWrite
deriving DecidableEq

/-- A write is terminal when it sets status completed or failed. -/
def isTerminalWrite : ConvexWrite → Bool
  | ConvexWrite.statusRunning => false
  | ConvexWrite.statusCompleted => true
  | ConvexWrite.statusFailed => true
  | ConvexWrite.resultCompleted => true

/-- The writes actually observed by the store: the successful attempts. -/
def observedWrites (l : List (ConvexWrite × Bool)) : List ConvexWrite :=
  (l.filter (fun e => e.2)).map (fun e => e.1)

/-- Number of terminal writes in a trace. -/
def terminalCount (l : List ConvexWrite) : Nat :=
  (l.filter isTerminalWrite).length

/-- The shape claimed for a full task trace: zero or one running update
followed by exactly one terminal update. -/
def goodTrace : List ConvexWrite → Bool
  | [t] => isTerminalWrite t
  | [ConvexWrite.statusRunning, t] => isTerminalWrite t
  | _ => false

/-- Environment of run_browser_use_task: which fallible steps succeed.
runningOk: the status-running mutation (line 558); runSucceeds:
run_browser_use returns without raising (line 581); extractOk: the
unguarded result.extracted_content()/action_results()/action_names()
calls (lines 729-731); resultWriteOk: the updateAgentResultFromBackend
mutation (line 785); deleteOk: delete_browser_session (line 814, failure
swallowed); failedWriteOk: the failed-status mutation of the except
handler (line 833, failure swallowed). -/
structure BrowserUseEnv where
  runningOk : Bool
  runSucceeds : Bool
  extractOk : Bool
  resultWriteOk : Bool
  deleteOk : Bool
  failedWriteOk : Bool
deriving DecidableEq, Fintype

/-- The except handler of run_browser_use_task (lines 824-846): attempt
one failed-status write, swallowing its failure. -/
def browserUseFailPath (e : BrowserUseEnv) (pre : List (ConvexWrite × Bool)) :
    List (ConvexWrite × Bool) :=
  pre ++ [(ConvexWrite.statusFailed, e.failedWriteOk)]

/-- Trace semantics of run_browser_use_task.  Returns (attempted writes,
whether run_browser_use was invoked).  Control flow: the running-status
write failure is re-raised (line 567: raise convex_error), reaching the
except handler without ever running the agent; a raise from the agent
run, the unguarded extraction calls, or the result write also reaches
the except handler; otherwise the result write ends the task and the
session delete is attempted (no store write). -/
def browserUseRun (e : BrowserUseEnv) : List (ConvexWrite × Bool) × Bool :=
  if e.runningOk = false then
    (browserUseFailPath e [(ConvexWrite.statusRunning, false)], false)
  else
    let pre := [(ConvexWrite.statusRunning, true)]
    if e.runSucceeds = false then
      (browserUseFailPath e pre, true)
    else if e.extractOk = false then
      (browserUseFailPath e pre, true)
    else if e.resultWriteOk then
      (pre ++ [(ConvexWrite.resultCompleted, true)], true)
    else
      (browserUseFailPath e (pre ++ [(ConvexWrite.resultCompleted, false)]), true)

/-- Environment of run_notte_task.  clientConfigured: notte_client is
not None (line 861); runningOk: the status-running mutation (line 883,
failure swallowed, lines 887-891); runSucceeds: run_notte returns
without raising (line 893); answerPresent: result_payload answer is
truthy (line 920); resultWriteOk: the result mutation (line 923, failure
swallowed); statusWriteOk: the status-only completed mutation of the
empty-answer branch (line 945, failure swallowed); failedWriteOk: the
failed-status mutations (lines 864 and 969, failures swallowed). -/
structure NotteEnv where
  clientConfigured : Bool
  runningOk : Bool
  runSucceeds : Bool
  answerPresent : Bool
  resultWriteOk : Bool
  statusWriteOk : Bool
  failedWriteOk : Bool
deriving DecidableEq

/-- NotteEnv is equivalent to a tuple of seven booleans. -/
def notteEnvEquiv : (Bool × Bool × Bool × Bool × Bool × Bool × Bool) ≃ NotteEnv where
  toFun t := ⟨t.1, t.2.1, t.2.2.1, t.2.2.2.1, t.2.2.2.2.1, t.2.2.2.2.2.1, t.2.2.2.2.2.2⟩
  invFun e := (e.clientConfigured, e.runningOk, e.runSucceeds, e.answerPresent,
    e.resultWriteOk, e.statusWriteOk, e.failedWriteOk)
  left_inv := fun _ => rfl
  right_inv := fun _ => rfl

instance : Fintype NotteEnv := Fintype.ofEquiv _ notteEnvEquiv

/-- Trace semantics of run_notte_task.  Returns (attempted writes,
whether run_notte was invoked). -/
def notteRun (e : NotteEnv) : List (ConvexWrite × Bool) × Bool :=
  if e.clientConfigured = false then
    ([(ConvexWrite.statusFailed, e.failedWriteOk)], false)
  else
    let pre := [(ConvexWrite.statusRunning, e.runningOk)]
    if e.runSucceeds = false then
      (pre ++ [(ConvexWrite.statusFailed, e.failedWriteOk)], true)
    else if e.answerPresent then
      (pre ++ [(ConvexWrite.resultCompleted, e.resultWriteOk)], true)
    else
      (pre ++ [(ConvexWrite.statusCompleted, e.statusWriteOk)], true)

/-- All store writes of the browser-use path succeed. -/
def BrowserUseEnv.storeOk (e : BrowserUseEnv) : Bool :=
  e.runningOk && e.resultWriteOk && e.failedWriteOk

/-- All store writes of the notte path succeed. -/
def NotteEnv.storeOk (e : NotteEnv) : Bool :=
  e.runningOk && e.resultWriteOk && e.statusWriteOk && e.failedWriteOk

/-- Is a write the result-payload mutation. -/
def isResultWrite : ConvexWrite → Bool
  | ConvexWrite.resultCompleted => true
  | _ => false

/-- Is a write the status-only completed mutation. -/
def isCompletedStatusWrite : ConvexWrite → Bool
  | ConvexWrite.statusCompleted => true
  | _ => false

/-! ## Python values and the result normalizer

to_jsonable appears identically in src/agents/server.py (lines 488-529)
and src/agents/notte_agent/main.py (lines 110-151);
filter_selectors_from_data is src/agents/notte_agent/main.py lines
78-107.  Python values are embedded as finite trees.  An object is one
of: an object whose model_dump() returns a value (pobjDump), an object
without usable model_dump but with a string-keyed attribute dict
(pobjAttrs, covering both an absent and a raising model_dump since the
code swallows that exception and falls through), or an object with
neither, for which str(value) yields the carried string (pobjFallback).
Python dicts are ordered association lists; a genuine dict has pairwise
distinct keys, and the merge of coerced duplicate string keys performed
by a Python dict comprehension is not modelled (it affects neither the
shape nor the idempotence property). -/

mutual

inductive PyValue : Type where
  | pnone : PyValue
  | pbool : Bool → PyValue
  | pint : Int → PyValue
  | pfloat : ℚ → PyValue
  | pstr : String → PyValue
  | pbytes : List Nat → PyValue
  | pdict : PyEntries → PyValue
  | plist : PyValues → PyValue
  | ptuple : PyValues → PyValue
  | pset : PyValues → PyValue
  | pobjDump : PyValue → PyValue
  | pobjAttrs : PyAttrs → PyValue
  | pobjFallback : String → PyValue

inductive PyValues : Type where
  | nil : PyValues
  | cons : PyValue → PyValues → PyValues

inductive PyEntries : Type where
  | nil : PyEntries
  | cons : PyValue → PyValue → PyEntries → PyEntries

inductive PyAttrs : Type where
  | nil : PyAttrs
  | cons : String → PyValue → PyAttrs → PyAttrs

end

/-- Abstract total model of the Python builtin str().  Only the facts
that it is total and that str of a string is that string itself matter
to the claims; container and object renderings are deterministic
placeholders. -/
def pyStr : PyValue → String
  | PyValue.pnone => "None"
  | PyValue.pbool true => "True"
  | PyValue.pbool false => "False"
  | PyValue.pint n => toString n
  | PyValue.pfloat q => toString q
  | PyValue.pstr s => s
  | PyValue.pbytes _ => "<bytes>"
  | PyValue.pdict _ => "<dict>"
  | PyValue.plist _ => "<list>"
  | PyValue.ptuple _ => "<tuple>"
  | PyValue.pset _ => "<set>"
  | PyValue.pobjDump _ => "<object>"
  | PyValue.pobjAttrs _ => "<object>"
  | PyValue.pobjFallback s => s

/-- Abstract total model of bytes.decode(utf-8, errors=ignore): exact on
ASCII, undecodable bytes dropped rather than raising. -/
def decodeUtf8Ignore (bs : List Nat) : String :=
  String.mk ((bs.filter (fun b => b < 128)).map (fun b => Char.ofNat b))

mutual

/-- Model of to_jsonable.  Branch order mirrors the source: primitives
returned as is; bytes decoded to a string; dicts rebuilt with
str-coerced keys and recursed values; list/tuple/set rebuilt as lists;
an object with a callable model_dump recursed on its dump; an object
with a __dict__ recursed on its string-keyed attribute mapping (the one
intermediate dict built by the source comprehension is unfolded here:
its keys are already strings, so str-coercion leaves them unchanged);
anything else falls back to str(value).  Every except handler of the
source degrades to a later branch, so the model is a total function and
no exception channel exists. -/
def to_jsonable : PyValue → PyValue
  | PyValue.pnone => PyValue.pnone
  | PyValue.pbool b => PyValue.pbool b
  | PyValue.pint n => PyValue.pint n
  | PyValue.pfloat q => PyValue.pfloat q
  | PyValue.pstr s => PyValue.pstr s
  | PyValue.pbytes bs => PyValue.pstr (decodeUtf8Ignore bs)
  | PyValue.pdict es => PyValue.pdict (to_jsonable_entries es)
  | PyValue.plist vs => PyValue.plist (to_jsonable_values vs)
  | PyValue.ptuple vs => PyValue.plist (to_jsonable_values vs)
  | PyValue.pset vs => PyValue.plist (to_jsonable_values vs)
  | PyValue.pobjDump d => to_jsonable d
  | PyValue.pobjAttrs a => PyValue.pdict (to_jsonable_attrs a)
  | PyValue.pobjFallback s => PyValue.pstr s

/-- Elementwise to_jsonable over a list of values. -/
def to_jsonable_values : PyValues → PyValues
  | PyValues.nil => PyValues.nil
  | PyValues.cons v tl => PyValues.cons (to_jsonable v) (to_jsonable_values tl)

/-- Entrywise to_jsonable over dict entries: keys str-coerced, values
recursed. -/
def to_jsonable_entries : PyEntries → PyEntries
  | PyEntries.nil => PyEntries.nil
  | PyEntries.cons k v tl =>
    PyEntries.cons (PyValue.pstr (pyStr k)) (to_jsonable v) (to_jsonable_entries tl)

/-- The attribute mapping of an object, converted as the dict built by
the source comprehension: attribute names are strings already. -/
def to_jsonable_attrs : PyAttrs → PyEntries
  | PyAttrs.nil => PyEntries.nil
  | PyAttrs.cons k v tl =>
    PyEntries.cons (PyValue.pstr k) (to_jsonable v) (to_jsonable_attrs tl)

end

mutual

/-- The JSON-safe shapes: null, booleans, numbers, strings, lists of
JSON-safe values, string-keyed objects with JSON-safe values. -/
def isJsonSafe : PyValue → Bool
  | PyValue.pnone => true
  | PyValue.pbool _ => true
  | PyValue.pint _ => true
  | PyValue.pfloat _ => true
  | PyValue.pstr _ => true
  | PyValue.pdict es => entriesJsonSafe es
  | PyValue.plist vs => valuesJsonSafe vs
  | _ => false

/-- All values of a list are JSON-safe. -/
def valuesJsonSafe : PyValues → Bool
  | PyValues.nil => true
  | PyValues.cons v tl => isJsonSafe v && valuesJsonSafe tl

/-- All entries have a string key and a JSON-safe value. -/
def entriesJsonSafe : PyEntries → Bool
  | PyEntries.nil => true
  | PyEntries.cons k v tl =>
    (match k with
      | PyValue.pstr _ => true
      | _ => false) && isJsonSafe v && entriesJsonSafe tl

end

/-- The selector-key denylist of filter_selectors_from_data (notte
main.py, lines 91-99). -/
def selectorDenylist : List String :=
  ["selector", "css_selector", "xpath_selector", "python_selector",
   "playwright_selector", "notte_selector", "iframe_parent_css_selectors"]

/-- The membership test key in [...] of the source: a dict key matches
the denylist only when it is one of these strings (a non-string key is
never equal to a string). -/
def isSelectorKey : PyValue → Bool
  | PyValue.pstr s => selectorDenylist.contains s
  | _ => false

mutual

/-- Model of filter_selectors_from_data: None passes through, dicts drop
denylisted keys and recurse into values, lists recurse elementwise, and
every other value is returned unchanged. -/
def filter_selectors_from_data : PyValue → PyValue
  | PyValue.pnone => PyValue.pnone
  | PyValue.pdict es => PyValue.pdict (filterEntries es)
  | PyValue.plist vs => PyValue.plist (filterValues vs)
  | x => x

/-- Elementwise filtering over a list of values. -/
def filterValues : PyValues → PyValues
  | PyValues.nil => PyValues.nil
  | PyValues.cons v tl => PyValues.cons (filter_selectors_from_data v) (filterValues tl)

/-- Entrywise filtering: denylisted keys skipped, kept values recursed. -/
def filterEntries : PyEntries → PyEntries
  | PyEntries.nil => PyEntries.nil
  | PyEntries.cons k v tl =>
    if isSelectorKey k then filterEntries tl
    else PyEntries.cons k (filter_selectors_from_data v) (filterEntries tl)

end

mutual

/-- No denylisted dict key or attribute name occurs anywhere in the
value, through every constructor. -/
def denyFree : PyValue → Bool
  | PyValue.pdict es => denyFreeEntries es
  | PyValue.plist vs => denyFreeValues vs
  | PyValue.ptuple vs => denyFreeValues vs
  | PyValue.pset vs => denyFreeValues vs
  | PyValue.pobjDump d => denyFree d
  | PyValue.pobjAttrs a => denyFreeAttrs a
  | _ => true

/-- denyFree over list elements. -/
def denyFreeValues : PyValues → Bool
  | PyValues.nil => true
  | PyValues.cons v tl => denyFree v && denyFreeValues tl

/-- denyFree over dict entries, checking the key itself as well. -/
def denyFreeEntries : PyEntries → Bool
  | PyEntries.nil => true
  | PyEntries.cons k v tl =>
    !isSelectorKey k && denyFree k && denyFree v && denyFreeEntries tl

/-- denyFree over attribute mappings. -/
def denyFreeAttrs : PyAttrs → Bool
  | PyAttrs.nil => true
  | PyAttrs.cons k v tl =>
    !selectorDenylist.contains k && denyFree v && denyFreeAttrs tl

end

/-- Is the value a dict or a list, the only shapes
filter_selectors_from_data recurses into. -/
def isDictOrList : PyValue → Bool
  | PyValue.pdict _ => true
  | PyValue.plist _ => true
  | _ => false

/-! ## Helper lemmas -/

theorem splitFirstAux_of_no_slash : (l : List Char) → '/' ∉ l → splitFirstAux l = none
  | [], _ => rfl
  | c :: tl, h => by
    have hc : ¬ (c = '/') := fun hc => h (hc ▸ List.mem_cons_self c tl)
    have htl : splitFirstAux tl = none :=
      splitFirstAux_of_no_slash tl (fun hm => h (List.mem_cons_of_mem c hm))
    simp [splitFirstAux, hc, htl]

theorem splitFirstAux_append (a : List Char) (ha : '/' ∉ a) (b : List Char) :
    splitFirstAux (a ++ '/' :: b) = some (a, b) := by
  induction a with
  | nil => simp [splitFirstAux]
  | cons c tl ih =>
    have hc : ¬ (c = '/') := fun hc => ha (hc ▸ List.mem_cons_self c tl)
    have htl : '/' ∉ tl := fun hm => ha (List.mem_cons_of_mem c hm)
    simp [splitFirstAux, hc, ih htl]

theorem pyStrip_eq_empty_iff (s : String) :
    pyStrip s = "" ↔ ∀ c ∈ s.data, isPyWhitespace c = true := by
  have hmk : ∀ l : List Char, String.mk l = "" ↔ l = [] := by
    intro l
    constructor
    · intro h
      have := congrArg String.data h
      simpa using this
    · intro h
      rw [h]
  rw [pyStrip, hmk, List.reverse_eq_nil_iff, List.dropWhile_eq_nil_iff]
  constructor
  · intro h c hc
    rcases (by
        have := List.takeWhile_append_dropWhile (p := isPyWhitespace) (l := s.data)
        rw [← this] at hc
        exact List.mem_append.mp hc) with hin | hin
    · exact List.mem_takeWhile_imp hin
    · exact h c (List.mem_reverse.mpr hin)
  · intro h c hc
    have hc2 : c ∈ s.data.dropWhile isPyWhitespace := List.mem_reverse.mp hc
    have : c ∈ s.data := (List.dropWhile_sublist _).subset hc2
    exact h c this

mutual

theorem to_jsonable_safe : (x : PyValue) → isJsonSafe (to_jsonable x) = true
  | PyValue.pnone => rfl
  | PyValue.pbool _ => rfl
  | PyValue.pint _ => rfl
  | PyValue.pfloat _ => rfl
  | PyValue.pstr _ => rfl
  | PyValue.pbytes _ => rfl
  | PyValue.pdict es => by
    simp only [to_jsonable, isJsonSafe]
    exact to_jsonable_entries_safe es
  | PyValue.plist vs => by
    simp only [to_jsonable, isJsonSafe]
    exact to_jsonable_values_safe vs
  | PyValue.ptuple vs => by
    simp only [to_jsonable, isJsonSafe]
    exact to_jsonable_values_safe vs
  | PyValue.pset vs => by
    simp only [to_jsonable, isJsonSafe]
    exact to_jsonable_values_safe vs
  | PyValue.pobjDump d => by
    simp only [to_jsonable]
    exact to_jsonable_safe d
  | PyValue.pobjAttrs a => by
    simp only [to_jsonable, isJsonSafe]
    exact to_jsonable_attrs_safe a
  | PyValue.pobjFallback _ => rfl

theorem to_jsonable_values_safe : (vs : PyValues) → valuesJsonSafe (to_jsonable_values vs) = true
  | PyValues.nil => rfl
  | PyValues.cons v tl => by
    simp only [to_jsonable_values, valuesJsonSafe, Bool.and_eq_true]
    exact ⟨to_jsonable_safe v, to_jsonable_values_safe tl⟩

theorem to_jsonable_entries_safe :
    (es : PyEntries) → entriesJsonSafe (to_jsonable_entries es) = true
  | PyEntries.nil => rfl
  | PyEntries.cons k v tl => by
    simp only [to_jsonable_entries, entriesJsonSafe, Bool.and_eq_true]
    exact ⟨⟨trivial, to_jsonable_safe v⟩, to_jsonable_entries_safe tl⟩

theorem to_jsonable_attrs_safe :
    (a : PyAttrs) → entriesJsonSafe (to_jsonable_attrs a) = true
  | PyAttrs.nil => rfl
  | PyAttrs.cons k v tl => by
    simp only [to_jsonable_attrs, entriesJsonSafe, Bool.and_eq_true]
    exact ⟨⟨trivial, to_jsonable_safe v⟩, to_jsonable_attrs_safe tl⟩

end

mutual

theorem to_jsonable_idem : (x : PyValue) → to_jsonable (to_jsonable x) = to_jsonable x
  | PyValue.pnone => rfl
  | PyValue.pbool _ => rfl
  | PyValue.pint _ => rfl
  | PyValue.pfloat _ => rfl
  | PyValue.pstr _ => rfl
  | PyValue.pbytes _ => rfl
  | PyValue.pdict es => by
    simp only [to_jsonable]
    exact congrArg PyValue.pdict (to_jsonable_entries_idem es)
  | PyValue.plist vs => by
    simp only [to_jsonable]
    exact congrArg PyValue.plist (to_jsonable_values_idem vs)
  | PyValue.ptuple vs => by
    simp only [to_jsonable]
    exact congrArg PyValue.plist (to_jsonable_values_idem vs)
  | PyValue.pset vs => by
    simp only [to_jsonable]
    exact congrArg PyValue.plist (to_jsonable_values_idem vs)
  | PyValue.pobjDump d => by
    simp only [to_jsonable]
    exact to_jsonable_idem d
  | PyValue.pobjAttrs a => by
    simp only [to_jsonable]
    exact congrArg PyValue.pdict (to_jsonable_entries_attrs a)
  | PyValue.pobjFallback _ => rfl

theorem to_jsonable_values_idem :
    (vs : PyValues) → to_jsonable_values (to_jsonable_values vs) = to_jsonable_values vs
  | PyValues.nil => rfl
  | PyValues.cons v tl => by
    simp only [to_jsonable_values]
    rw [to_jsonable_idem v, to_jsonable_values_idem tl]

theorem to_jsonable_entries_idem :
    (es : PyEntries) → to_jsonable_entries (to_jsonable_entries es) = to_jsonable_entries es
  | PyEntries.nil => rfl
  | PyEntries.cons k v tl => by
    simp only [to_jsonable_entries, pyStr]
    rw [to_jsonable_idem v, to_jsonable_entries_idem tl]

theorem to_jsonable_entries_attrs :
    (a : PyAttrs) → to_jsonable_entries (to_jsonable_attrs a) = to_jsonable_attrs a
  | PyAttrs.nil => rfl
  | PyAttrs.cons k v tl => by
    simp only [to_jsonable_attrs, to_jsonable_entries, pyStr]
    rw [to_jsonable_idem v, to_jsonable_entries_attrs tl]

end

mutual

theorem filter_denyFree_of_jsonSafe :
    (x : PyValue) → isJsonSafe x = true → denyFree (filter_selectors_from_data x) = true
  | PyValue.pnone, _ => rfl
  | PyValue.pbool _, _ => rfl
  | PyValue.pint _, _ => rfl
  | PyValue.pfloat _, _ => rfl
  | PyValue.pstr _, _ => rfl
  | PyValue.pbytes _, h => by simp [isJsonSafe] at h
  | PyValue.pdict es, h => by
    simp only [isJsonSafe] at h
    simp only [filter_selectors_from_data, denyFree]
    exact filterEntries_denyFree es h
  | PyValue.plist vs, h => by
    simp only [isJsonSafe] at h
    simp only [filter_selectors_from_data, denyFree]
    exact filterValues_denyFree vs h
  | PyValue.ptuple _, h => by simp [isJsonSafe] at h
  | PyValue.pset _, h => by simp [isJsonSafe] at h
  | PyValue.pobjDump _, h => by simp [isJsonSafe] at h
  | PyValue.pobjAttrs _, h => by simp [isJsonSafe] at h
  | PyValue.pobjFallback _, h => by simp [isJsonSafe] at h

theorem filterValues_denyFree :
    (vs : PyValues) → valuesJsonSafe vs = true → denyFreeValues (filterValues vs) = true
  | PyValues.nil, _ => rfl
  | PyValues.cons v tl, h => by
    simp only [valuesJsonSafe, Bool.and_eq_true] at h
    simp only [filterValues, denyFreeValues, Bool.and_eq_true]
    exact ⟨filter_denyFree_of_jsonSafe v h.1, filterValues_denyFree tl h.2⟩

theorem filterEntries_denyFree :
    (es : PyEntries) → entriesJsonSafe es = true → denyFreeEntries (filterEntries es) = true
  | PyEntries.nil, _ => rfl
  | PyEntries.cons k v tl, h => by
    simp only [entriesJsonSafe, Bool.and_eq_true] at h
    obtain ⟨⟨hk, hv⟩, htl⟩ := h
    have hkstr : denyFree k = true := by
      cases k <;> simp_all [denyFree]
    cases hsel : isSelectorKey k with
    | true =>
      simp only [filterEntries, hsel, if_true]
      exact filterEntries_denyFree tl htl
    | false =>
      simp only [filterEntries, hsel, Bool.false_eq_true, if_false]
      simp only [denyFreeEntries, hsel, Bool.not_false, Bool.true_and, Bool.and_eq_true]
      exact ⟨⟨hkstr, filter_denyFree_of_jsonSafe v hv⟩, filterEntries_denyFree tl htl⟩

end

mutual

theorem filter_id_of_denyFree :
    (x : PyValue) → denyFree x = true → filter_selectors_from_data x = x
  | PyValue.pnone, _ => rfl
  | PyValue.pbool _, _ => rfl
  | PyValue.pint _, _ => rfl
  | PyValue.pfloat _, _ => rfl
  | PyValue.pstr _, _ => rfl
  | PyValue.pbytes _, _ => rfl
  | PyValue.pdict es, h => by
    simp only [denyFree] at h
    simp only [filter_selectors_from_data]
    exact congrArg PyValue.pdict (filterEntries_id es h)
  | PyValue.plist vs, h => by
    simp only [denyFree] at h
    simp only [filter_selectors_from_data]
    exact congrArg PyValue.plist (filterValues_id vs h)
  | PyValue.ptuple _, _ => rfl
  | PyValue.pset _, _ => rfl
  | PyValue.pobjDump _, _ => rfl
  | PyValue.pobjAttrs _, _ => rfl
  | PyValue.pobjFallback _, _ => rfl

theorem filterValues_id :
    (vs : PyValues) → denyFreeValues vs = true → filterValues vs = vs
  | PyValues.nil, _ => rfl
  | PyValues.cons v tl, h => by
    simp only [denyFreeValues, Bool.and_eq_true] at h
    simp only [filterValues]
    rw [filter_id_of_denyFree v h.1, filterValues_id tl h.2]

theorem filterEntries_id :
    (es : PyEntries) → denyFreeEntries es = true → filterEntries es = es
  | PyEntries.nil, _ => rfl
  | PyEntries.cons k v tl, h => by
    simp only [denyFreeEntries, Bool.and_eq_true] at h
    obtain ⟨⟨⟨hsel, _⟩, hv⟩, htl⟩ := h
    have hsel2 : isSelectorKey k = false := by
      cases hx : isSelectorKey k
      · rfl
      · rw [hx] at hsel
        simp at hsel
    simp only [filterEntries, hsel2, Bool.false_eq_true, if_false]
    rw [filter_id_of_denyFree v hv, filterEntries_id tl htl]

end

theorem pollLoop_step_fail {α : Type} (fetch : Nat → Option α) (mr : Nat) (md : ℚ)
    (att : Nat) (d : ℚ) (hlt : att < mr - 1) (hf : fetch att = none) :
    pollLoop fetch mr md att d =
      ((pollLoop fetch mr md (att + 1) (min (d * 1.5) md)).1,
       (pollLoop fetch mr md (att + 1) (min (d * 1.5) md)).2.1 + 1,
       d :: (pollLoop fetch mr md (att + 1) (min (d * 1.5) md)).2.2) := by
  rw [pollLoop]
  simp [hf, hlt, show att < mr by omega]

theorem pollLoop_step_ok {α : Type} (fetch : Nat → Option α) (mr : Nat) (md : ℚ)
    (att : Nat) (d : ℚ) (v : α) (hlt : att < mr) (hf : fetch att = some v) :
    pollLoop fetch mr md att d = (some v, 1, []) := by
  rw [pollLoop]
  simp [hf, hlt]

theorem pollLoop_last_fail {α : Type} (fetch : Nat → Option α) (mr : Nat) (md : ℚ)
    (att : Nat) (d : ℚ) (hlt : att < mr) (hlast : ¬ (att < mr - 1))
    (hf : fetch att = none) :
    pollLoop fetch mr md att d = (none, 1, []) := by
  rw [pollLoop]
  simp [hf, hlt, hlast]

/-! ## Claim theorems -/

set_option maxRecDepth 10000 in
/-- C1: in both background task paths, any single task issues at most
one terminal status write that the store can observe, and whenever the
store accepts the issued writes the observed sequence is zero or one
running update followed by exactly one terminal (completed or failed)
update. -/
theorem c1_terminal_update_shape :
    ∀ (e : BrowserUseEnv) (e2 : NotteEnv),
      (terminalCount (observedWrites (browserUseRun e).1) ≤ 1
        ∧ (e.storeOk = true → goodTrace (observedWrites (browserUseRun e).1) = true))
      ∧ (terminalCount (observedWrites (notteRun e2).1) ≤ 1
        ∧ (e2.storeOk = true → goodTrace (observedWrites (notteRun e2).1) = true)) := by
  decide

/-- Witness for C1 at the environment where every operation succeeds. -/
theorem c1_terminal_update_shape_witness :
    goodTrace (observedWrites (browserUseRun ⟨true, true, true, true, true, true⟩).1) = true
    ∧ goodTrace (observedWrites (notteRun ⟨true, true, true, true, true, true, true⟩).1) = true :=
  ⟨(c1_terminal_update_shape ⟨true, true, true, true, true, true⟩
      ⟨true, true, true, true, true, true, true⟩).1.2 (by decide),
   (c1_terminal_update_shape ⟨true, true, true, true, true, true⟩
      ⟨true, true, true, true, true, true, true⟩).2.2 (by decide)⟩

/-- C2 counterexample: in the browser-use path, when the running-status
write raises and everything else would succeed, the agent is never
invoked (second component false) and the task is terminally failed, so
the running-write failure is fatal there, contradicting the claim. -/
theorem c2_counterexample :
    (browserUseRun ⟨false, true, true, true, true, true⟩).2 = false
    ∧ observedWrites (browserUseRun ⟨false, true, true, true, true, true⟩).1
        = [ConvexWrite.statusFailed] := by
  decide

set_option maxRecDepth 10000 in
/-- C2 amended: in the notte path a failed running-status write is
logged and execution continues unchanged to its normal terminal
outcome, while in the browser-use path the caught exception is
re-raised, the agent is never invoked, and the task terminates with a
failed update. -/
theorem c2_running_write_failure :
    (∀ e : NotteEnv, e.clientConfigured = true →
        ((notteRun { e with runningOk := false }).2 = true
          ∧ List.drop 1 (notteRun { e with runningOk := false }).1
              = List.drop 1 (notteRun { e with runningOk := true }).1))
    ∧ (∀ e : BrowserUseEnv, e.runningOk = false →
        ((browserUseRun e).2 = false
          ∧ (browserUseRun e).1
              = [(ConvexWrite.statusRunning, false),
                 (ConvexWrite.statusFailed, e.failedWriteOk)])) := by
  decide

/-- Witness for C2 amended at concrete environments. -/
theorem c2_running_write_failure_witness :
    (notteRun ⟨true, false, true, true, true, true, true⟩).2 = true
    ∧ (browserUseRun ⟨false, false, false, false, false, true⟩).2 = false :=
  ⟨(c2_running_write_failure.1 ⟨true, true, true, true, true, true, true⟩ (by decide)).1,
   (c2_running_write_failure.2 ⟨false, false, false, false, false, true⟩ (by decide)).1⟩

set_option maxRecDepth 10000 in
/-- C9: in the notte path, when execution succeeds but the answer field
is empty, no result write is ever issued, exactly one status-only
completed update is issued, and when the store accepts it the last
observed write is the completed status. -/
theorem c9_empty_answer_no_result_write :
    ∀ e : NotteEnv, e.clientConfigured = true → e.runSucceeds = true →
      e.answerPresent = false →
      (((notteRun e).1.filter (fun w => isResultWrite w.1)).length = 0
        ∧ ((notteRun e).1.filter (fun w => isCompletedStatusWrite w.1)).length = 1
        ∧ (e.statusWriteOk = true →
            (observedWrites (notteRun e).1).getLast? = some ConvexWrite.statusCompleted)) := by
  decide

/-- Witness for C9 at a concrete environment. -/
theorem c9_empty_answer_no_result_write_witness :
    ((notteRun ⟨true, true, true, false, true, true, true⟩).1.filter
        (fun w => isResultWrite w.1)).length = 0 :=
  (c9_empty_answer_no_result_write ⟨true, true, true, false, true, true, true⟩
    (by decide) (by decide) (by decide)).1

/-- C5: to_jsonable is a total function (hence terminates without
raising on every embedded input), every value it returns is built only
from null, booleans, numbers, strings, lists and string-keyed objects at
every depth, and it is idempotent. -/
theorem c5_to_jsonable_safe_idempotent :
    ∀ x : PyValue,
      isJsonSafe (to_jsonable x) = true
      ∧ to_jsonable (to_jsonable x) = to_jsonable x :=
  fun x => ⟨to_jsonable_safe x, to_jsonable_idem x⟩

/-- C6 counterexample: a denylisted key inside a dict that is wrapped in
a tuple is at a nesting depth of the input, yet it survives filtering,
so the claim that every occurrence at every nesting depth of the input
is removed is false. -/
theorem c6_counterexample :
    denyFree (filter_selectors_from_data (PyValue.ptuple (PyValues.cons
      (PyValue.pdict (PyEntries.cons (PyValue.pstr ("selector")) (PyValue.pstr ("#login"))
        PyEntries.nil)) PyValues.nil))) = false := rfl

/-- C6 amended: filter_selectors_from_data removes every denylisted key
at every nesting depth reachable through dicts and lists; in particular
on any output of to_jsonable, and on any JSON-safe value, the result
contains no denylisted key anywhere; and on any structure containing no
denylisted key at all the function is the identity. -/
theorem c6_strip_selectors :
    ∀ x : PyValue,
      denyFree (filter_selectors_from_data (to_jsonable x)) = true
      ∧ (isJsonSafe x = true → denyFree (filter_selectors_from_data x) = true)
      ∧ (denyFree x = true → filter_selectors_from_data x = x) :=
  fun x => ⟨filter_denyFree_of_jsonSafe (to_jsonable x) (to_jsonable_safe x),
    filter_denyFree_of_jsonSafe x, filter_id_of_denyFree x⟩

/-- Witness for C6 amended at concrete inputs: a dict holding a
css_selector key is cleaned, and a clean list round-trips unchanged. -/
theorem c6_strip_selectors_witness :
    denyFree (filter_selectors_from_data (PyValue.pdict (PyEntries.cons
      (PyValue.pstr ("css_selector")) (PyValue.pstr ("#x"))
      (PyEntries.cons (PyValue.pstr ("url")) (PyValue.pstr ("https://e"))
        PyEntries.nil)))) = true
    ∧ filter_selectors_from_data (PyValue.plist (PyValues.cons (PyValue.pstr ("a"))
        PyValues.nil))
      = PyValue.plist (PyValues.cons (PyValue.pstr ("a")) PyValues.nil) :=
  ⟨(c6_strip_selectors (PyValue.pdict (PyEntries.cons
      (PyValue.pstr ("css_selector")) (PyValue.pstr ("#x"))
      (PyEntries.cons (PyValue.pstr ("url")) (PyValue.pstr ("https://e"))
        PyEntries.nil)))).2.1 rfl,
   (c6_strip_selectors (PyValue.plist (PyValues.cons (PyValue.pstr ("a"))
      PyValues.nil))).2.2 rfl⟩

/-- C10: filter_selectors_from_data recurses only into dicts and lists;
every other value is returned unchanged together with everything nested
inside it, so a denylisted key inside a dict wrapped in a tuple survives
filtering, and None maps to None. -/
theorem c10_filter_recursion_boundary :
    (∀ x : PyValue, isDictOrList x = false → filter_selectors_from_data x = x)
    ∧ filter_selectors_from_data (PyValue.plist (PyValues.cons (PyValue.ptuple
        (PyValues.cons (PyValue.pdict (PyEntries.cons (PyValue.pstr ("xpath_selector"))
          (PyValue.pstr ("//a")) PyEntries.nil)) PyValues.nil)) PyValues.nil))
      = PyValue.plist (PyValues.cons (PyValue.ptuple
        (PyValues.cons (PyValue.pdict (PyEntries.cons (PyValue.pstr ("xpath_selector"))
          (PyValue.pstr ("//a")) PyEntries.nil)) PyValues.nil)) PyValues.nil)
    ∧ filter_selectors_from_data PyValue.pnone = PyValue.pnone := by
  refine ⟨fun x h => ?_, rfl, rfl⟩
  cases x <;> simp_all [isDictOrList, filter_selectors_from_data]

/-- Witness for C10 at a concrete non-dict non-list input. -/
theorem c10_filter_recursion_boundary_witness :
    filter_selectors_from_data (PyValue.pset (PyValues.cons (PyValue.pstr ("selector"))
      PyValues.nil))
    = PyValue.pset (PyValues.cons (PyValue.pstr ("selector")) PyValues.nil) :=
  c10_filter_recursion_boundary.1
    (PyValue.pset (PyValues.cons (PyValue.pstr ("selector")) PyValues.nil)) rfl

/-- C3: an instruction that is empty after stripping, or longer than the
default maximum 5000, fails validation and creates no task record; any
instruction of length 1 to 5000 with some non-whitespace character
passes validation and is admitted. -/
theorem c3_instruction_validation :
    ∀ s : String,
      ((pyStrip s = "" ∨ 5000 < s.length) →
          agentRequestAccepts s = false ∧ submit s = none)
      ∧ ((1 ≤ s.length ∧ s.length ≤ 5000 ∧ ∃ c ∈ s.data, isPyWhitespace c = false) →
          agentRequestAccepts s = true ∧ submit s = some ()) := by
  intro s
  constructor
  · intro h
    have hacc : agentRequestAccepts s = false := by
      rcases h with hstrip | hlong
      · have hval : (validate_instruction MAX_INSTRUCTION_LENGTH s).1 = false := by
          by_cases hse : s = ""
          · simp [validate_instruction, hse]
          · by_cases hlen : s.length > MAX_INSTRUCTION_LENGTH
            · simp [validate_instruction, hse, hlen]
            · simp [validate_instruction, hse, hlen, hstrip]
        simp [agentRequestAccepts, hval]
      · have hle : ¬ (s.length ≤ 5000) := by omega
        simp [agentRequestAccepts, hle]
    exact ⟨hacc, by simp [submit, hacc]⟩
  · rintro ⟨h1, h2, c, hc, hcw⟩
    have hne : s ≠ "" := by
      intro he
      rw [he] at h1
      simp at h1
    have hstrip : ¬ (pyStrip s = "") := by
      rw [pyStrip_eq_empty_iff]
      intro hall
      have := hall c hc
      rw [hcw] at this
      exact Bool.noConfusion this
    have hlen : ¬ (s.length > MAX_INSTRUCTION_LENGTH) := by
      simp only [MAX_INSTRUCTION_LENGTH]
      omega
    have hval : (validate_instruction MAX_INSTRUCTION_LENGTH s).1 = true := by
      simp [validate_instruction, hne, hlen, hstrip]
    have hacc : agentRequestAccepts s = true := by
      simp [agentRequestAccepts, h1, h2, hval]
    exact ⟨hacc, by simp [submit, hacc]⟩

/-- Witness for C3: an ASCII-whitespace-only instruction and a no-break
space U+00A0 instruction are both rejected as empty after stripping,
and a short real instruction is admitted. -/
theorem c3_instruction_validation_witness :
    agentRequestAccepts ("   ") = false
    ∧ agentRequestAccepts ("\u00A0") = false
    ∧ agentRequestAccepts ("find X") = true :=
  ⟨((c3_instruction_validation ("   ")).1 (Or.inl (by decide))).1,
   ((c3_instruction_validation ("\u00A0")).1 (Or.inl (by decide))).1,
   ((c3_instruction_validation ("find X")).2
      ⟨by decide, by decide, ⟨'f', by decide, by decide⟩⟩).1⟩

/-- C4 counterexample: the claim says an unqualified non-empty string
with no slash resolves to the baseline pair, but parse_provider_model
raises ValueError on such input (tuple unpacking of a one-element
split). -/
theorem c4_counterexample :
    parse_provider_model ("gpt-4.1")
        = Except.error ("ValueError: not enough values to unpack")
    ∧ parse_provider_model ("gpt-4.1") ≠ Except.ok (("browser-use", "bu-1.0")) := by
  constructor
  · rfl
  · intro h
    rw [show parse_provider_model ("gpt-4.1")
          = Except.error ("ValueError: not enough values to unpack") from rfl] at h
    exact Except.noConfusion h

/-- C4 amended: the empty string maps to the baseline pair; any string
with the openrouter/ namespace yields provider openrouter and the
remainder after the namespace verbatim; any other string containing a
slash splits at the first slash into provider and model; and a
non-empty string without a slash raises ValueError instead of falling
back to the baseline pair. -/
theorem c4_parse_provider_model :
    parse_provider_model ("") = Except.ok (("browser-use", "bu-1.0"))
    ∧ (∀ r : String,
        parse_provider_model ("openrouter/" ++ r) = Except.ok (("openrouter", r)))
    ∧ (∀ a b : String, '/' ∉ a.data →
        List.isPrefixOf ("openrouter/".data) ((a ++ "/" ++ b).data) = false →
        parse_provider_model (a ++ "/" ++ b) = Except.ok ((a, b)))
    ∧ (∀ s : String, s ≠ "" → '/' ∉ s.data →
        parse_provider_model s
          = Except.error ("ValueError: not enough values to unpack")) := by
  refine ⟨rfl, ?_, ?_, ?_⟩
  · intro r
    have hpre : List.isPrefixOf ("openrouter/".data) (("openrouter/" ++ r).data) = true := by
      rw [String.data_append]
      exact List.isPrefixOf_iff_prefix.mpr (List.prefix_append _ _)
    have hsplit : splitFirstAux (("openrouter/" ++ r).data)
        = some (['o', 'p', 'e', 'n', 'r', 'o', 'u', 't', 'e', 'r'], r.data) := by
      rw [String.data_append]
      exact splitFirstAux_append ['o', 'p', 'e', 'n', 'r', 'o', 'u', 't', 'e', 'r']
        (by decide) r.data
    unfold parse_provider_model pySplitSlash1
    rw [if_pos hpre, hsplit]
  · intro a b ha hpre
    have hdata : (a ++ "/" ++ b).data = a.data ++ ('/' :: b.data) := by
      rw [String.data_append, String.data_append]
      simp
    have hc : ¬ (List.isPrefixOf ("openrouter/".data) ((a ++ "/" ++ b).data) = true) := by
      rw [hpre]
      exact Bool.false_ne_true
    have hne : ¬ (a ++ "/" ++ b = "") := by
      intro h
      have h2 := congrArg String.data h
      rw [hdata] at h2
      simp at h2
    have hsplit : splitFirstAux ((a ++ "/" ++ b).data) = some (a.data, b.data) := by
      rw [hdata]
      exact splitFirstAux_append a.data ha b.data
    unfold parse_provider_model pySplitSlash1
    rw [if_neg hc, if_neg hne, hsplit]
  · intro s hne hslash
    have hpre : List.isPrefixOf ("openrouter/".data) s.data = false := by
      cases hx : List.isPrefixOf ("openrouter/".data) s.data
      · rfl
      · exfalso
        have hp : "openrouter/".data <+: s.data := List.isPrefixOf_iff_prefix.mp hx
        exact hslash (hp.subset (by decide))
    have hc : ¬ (List.isPrefixOf ("openrouter/".data) s.data = true) := by
      rw [hpre]
      exact Bool.false_ne_true
    have hsplit : splitFirstAux s.data = none := splitFirstAux_of_no_slash s.data hslash
    unfold parse_provider_model pySplitSlash1
    rw [if_neg hc, if_neg hne, hsplit]

/-- Witness for C4 amended: a generic provider/model string splits at
the first slash, and a non-empty unqualified string raises. -/
theorem c4_parse_provider_model_witness :
    parse_provider_model ("anthropic" ++ "/" ++ "claude-haiku-4.5")
        = Except.ok (("anthropic", "claude-haiku-4.5"))
    ∧ parse_provider_model ("bu-1.0")
        = Except.error ("ValueError: not enough values to unpack") :=
  ⟨c4_parse_provider_model.2.2.1 ("anthropic") ("claude-haiku-4.5") (by decide) (by decide),
   c4_parse_provider_model.2.2.2 ("bu-1.0") (by decide) (by decide)⟩

/-- C7: compute_cost returns a nonzero total_cost unchanged regardless
of the token fields; with zero or absent total_cost it charges
promptTokens, completionTokens and cachedPromptTokens at the pricing
tier found under the exact provider/model key when present, and at the
default tier prices 0.5, 3.0 and 0.1 per million tokens when the key is
absent; a zero-total_cost usage on the google/gemini-2.5-flash table
entry is billed at that named tier; one million prompt tokens on an
unknown model cost the default input price times one million, and a
usage with total_cost 7.5 yields exactly 7.5. -/
theorem c7_compute_cost :
    (∀ (model : String) (usage : List (String × ℚ)) (c : ℚ),
        List.lookup ("total_cost") usage = some c → c ≠ 0 →
        compute_cost model usage = c)
    ∧ (∀ (model : String) (usage : List (String × ℚ)),
        List.lookup model pricing = none →
        (List.lookup ("total_cost") usage).getD 0 = 0 →
        compute_cost model usage =
          (List.lookup ("total_prompt_tokens") usage).getD 0 * (0.5 / 1000000)
            + (List.lookup ("total_completion_tokens") usage).getD 0 * (3.00 / 1000000)
            + (List.lookup ("total_prompt_cached_tokens") usage).getD 0 * (0.10 / 1000000))
    ∧ (∀ (model : String) (usage : List (String × ℚ)) (tier : PriceTier),
        List.lookup model pricing = some tier →
        (List.lookup ("total_cost") usage).getD 0 = 0 →
        compute_cost model usage =
          (List.lookup ("total_prompt_tokens") usage).getD 0 * tier.inPrice
            + (List.lookup ("total_completion_tokens") usage).getD 0 * tier.outPrice
            + (List.lookup ("total_prompt_cached_tokens") usage).getD 0 * tier.cachedPrice)
    ∧ compute_cost ("google/gemini-2.5-flash")
        [(("total_cost"), 0), (("total_prompt_tokens"), 1000000),
         (("total_completion_tokens"), 1000000), (("total_prompt_cached_tokens"), 1000000)]
        = 2.83
    ∧ compute_cost ("unknown/model")
        [(("total_cost"), 0), (("total_prompt_tokens"), 1000000),
         (("total_completion_tokens"), 0), (("total_prompt_cached_tokens"), 0)]
        = (0.5 / 1000000) * 1000000
    ∧ compute_cost ("google/gemini-2.5-flash")
        [(("total_cost"), 7.5), (("total_prompt_tokens"), 123),
         (("total_completion_tokens"), 456), (("total_prompt_cached_tokens"), 789)]
        = 7.5 := by
  refine ⟨?_, ?_, ?_, ?_, ?_, ?_⟩
  · intro model usage c h1 h2
    simp [compute_cost, h1, h2]
  · intro model usage h1 h2
    simp [compute_cost, h1, h2]
  · intro model usage tier h1 h2
    simp [compute_cost, h1, h2]
  · simp +decide [compute_cost, pricing, List.lookup]
    norm_num
  · simp +decide [compute_cost, pricing, List.lookup]
    norm_num
  · have h75 : (7.5 : ℚ) ≠ 0 := by norm_num
    simp +decide [compute_cost, List.lookup, h75]

/-- Witness for C7: a nonzero total_cost is trusted verbatim, the empty
usage dict on an unknown model costs zero, and two million prompt
tokens on the anthropic/claude-haiku-4.5 table entry cost 2. -/
theorem c7_compute_cost_witness :
    compute_cost ("m") [(("total_cost"), (7.5 : ℚ))] = 7.5
    ∧ compute_cost ("nope/x") [] = 0
    ∧ compute_cost ("anthropic/claude-haiku-4.5") [(("total_prompt_tokens"), 2000000)] = 2 := by
  refine ⟨?_, ?_, ?_⟩
  · exact c7_compute_cost.1 ("m") [(("total_cost"), 7.5)] 7.5 (by simp [List.lookup])
      (by norm_num)
  · have h := c7_compute_cost.2.1 ("nope/x") [] (by simp [pricing, List.lookup]) (by simp)
    simpa using h
  · have h := c7_compute_cost.2.2.1 ("anthropic/claude-haiku-4.5")
      [(("total_prompt_tokens"), 2000000)]
      ⟨1.0 / 1000000, 5.0 / 1000000, 0.1 / 1000000⟩ rfl rfl
    rw [h]
    simp +decide [List.lookup]
    norm_num

/-- C8: the poller calls the fetch once per attempt and sleeps the
current delay between failed attempts, multiplying it by 1.5 capped at
the maximum; with the defaults a fetch failing three times then
succeeding returns the value after 4 calls and sleeps 1.0, 1.5, 2.25;
a fetch that always fails yields none after exactly 10 calls and the
capped sleep sequence, never raising. -/
theorem c8_debug_info_polling :
    ∀ {α : Type} (fetch : Nat → Option α) (v : α),
      ((fetch 0 = none) → (fetch 1 = none) → (fetch 2 = none) → (fetch 3 = some v) →
        get_debug_info_with_polling fetch 10 1 5 = (some v, 4, [1, 1.5, 2.25]))
      ∧ ((∀ i, fetch i = none) →
        get_debug_info_with_polling fetch 10 1 5
          = (none, 10, [1, 1.5, 2.25, 3.375, 5, 5, 5, 5, 5])) := by
  intro α fetch v
  constructor
  · intro h0 h1 h2 h3
    unfold get_debug_info_with_polling
    rw [pollLoop_step_fail fetch 10 5 0 1 (by omega) h0,
        pollLoop_step_fail fetch 10 5 1 _ (by omega) h1,
        pollLoop_step_fail fetch 10 5 2 _ (by omega) h2,
        pollLoop_step_ok fetch 10 5 3 _ v (by omega) h3]
    norm_num [min_def]
  · intro h
    unfold get_debug_info_with_polling
    rw [pollLoop_step_fail fetch 10 5 0 1 (by omega) (h 0),
        pollLoop_step_fail fetch 10 5 1 _ (by omega) (h 1),
        pollLoop_step_fail fetch 10 5 2 _ (by omega) (h 2),
        pollLoop_step_fail fetch 10 5 3 _ (by omega) (h 3),
        pollLoop_step_fail fetch 10 5 4 _ (by omega) (h 4),
        pollLoop_step_fail fetch 10 5 5 _ (by omega) (h 5),
        pollLoop_step_fail fetch 10 5 6 _ (by omega) (h 6),
        pollLoop_step_fail fetch 10 5 7 _ (by omega) (h 7),
        pollLoop_step_fail fetch 10 5 8 _ (by omega) (h 8),
        pollLoop_last_fail fetch 10 5 9 _ (by omega) (by omega) (h 9)]
    norm_num [min_def]

/-- Witness for C8 with concrete fetch functions. -/
theorem c8_debug_info_polling_witness :
    get_debug_info_with_polling (fun i => if i < 3 then none else some 7) 10 1 5
        = (some 7, 4, [1, 1.5, 2.25])
    ∧ get_debug_info_with_polling (fun _ => (none : Option Nat)) 10 1 5
        = (none, 10, [1, 1.5, 2.25, 3.375, 5, 5, 5, 5, 5]) :=
  ⟨(c8_debug_info_polling (fun i => if i < 3 then none else some 7) 7).1 rfl rfl rfl rfl,
   (c8_debug_info_polling (fun _ => (none : Option Nat)) 7).2 (fun _ => rfl)⟩

end TBA
